import Mathlib

/-!
Verification development for the Slide Patcher annotation editor.

The definitions below are a shallow embedding of the editor core found in
the application source (the `App` component): the document model
(slides with overlay objects), the bounded undo/redo history, the
pointer-driven edit state machine, the OCR region pipeline, and the PPTX
export transform.  JavaScript numbers are modelled as `Rat` (all the
arithmetic relevant to the stated properties is exact), JS arrays as
`List`, nullable values as `Option`, and the asynchronous OCR
collaborator outcome as an explicit `Except` parameter.
-/

namespace SlidePatcher

/-- A 2-D point in canvas (raster pixel) coordinates. -/
structure Pos where
  x : Rat
  y : Rat
deriving DecidableEq

/-- The discriminant of an overlay object: source field `type` of `CanvasObject`. -/
inductive ObjKind
  | mask
  | text
deriving DecidableEq

/-- Source interface `CanvasObject`: one overlay object on a slide. -/
structure CanvasObject where
  id : String
  kind : ObjKind
  x : Rat
  y : Rat
  width : Rat
  height : Rat
  content : Option String := none
  color : String
  fontSize : Option Rat := none
deriving DecidableEq

/-- The raster base of a slide (source: `HTMLCanvasElement`); only its pixel
dimensions are observable to the properties considered here. -/
structure Raster where
  width : Nat
  height : Nat
deriving DecidableEq

/-- Source interface `SlideData`. -/
structure SlideData where
  id : String
  canvas : Raster
  thumbnail : String
  objects : List CanvasObject
deriving DecidableEq

/-- One slide's entry inside a history snapshot. -/
structure HistSlide where
  id : String
  objects : List CanvasObject
deriving DecidableEq

/-- Source interface `HistoryState`. -/
structure HistoryState where
  slides : List HistSlide
  currentSlideIndex : Nat
deriving DecidableEq

/-- Source type `Tool`. -/
inductive Tool
  | select
  | mask
  | text
  | eyedropper
  | scan
  | pan
deriving DecidableEq

/-- Source type `Handle` (the non-null alternatives; the null case is
`Option.none` at use sites). -/
inductive Handle
  | nw
  | n
  | ne
  | e
  | se
  | s
  | sw
  | w
deriving DecidableEq

/-- The React component state together with the mutable refs of the source
`App` component that the edit state machine reads and writes.
`historyIndex` is an `Int` because the source initialises it to `-1`.
`isPanningFlag` models the `isPanning` ref; `panStart`/`panStartOffset`
model the `panStart` ref's `(x, y)` and `(offX, offY)` halves. -/
structure AppState where
  slides : List SlideData
  currentSlideIndex : Nat
  activeTool : Tool
  selectedObjectId : Option String
  editingTextId : Option String
  currentColor : String
  maskColor : String
  textColor : String
  activeHandle : Option Handle
  history : List HistoryState
  historyIndex : Int
  isInternalStateUpdate : Bool
  isDrawing : Bool
  isDragging : Bool
  isPanningFlag : Bool
  isPanningMode : Bool
  startPos : Pos
  dragOffset : Pos
  offset : Pos
  panStart : Pos
  panStartOffset : Pos
  currentObjectRef : Option CanvasObject
  isScanning : Bool
deriving DecidableEq

/-- The deep snapshot built by `saveToHistory`
(`currentSlides.map(s => ({id: s.id, objects: deepcopy(s.objects)}))`). -/
def mkHistoryState (currentSlides : List SlideData) (index : Nat) : HistoryState :=
  { slides := currentSlides.map (fun s => { id := s.id, objects := s.objects })
    currentSlideIndex := index }

/-- Source `saveToHistory(currentSlides, index)`: skipped while a restore is
in flight; otherwise truncates beyond the cursor, appends the snapshot,
evicts the head once the length would exceed 50, and advances the cursor
clamped at 49. -/
def saveToHistory (st : AppState) (currentSlides : List SlideData) (index : Nat) : AppState :=
  if st.isInternalStateUpdate then st
  else
    let newHistory := st.history.take (st.historyIndex + 1).toNat ++ [mkHistoryState currentSlides index]
    let newHistory2 := if 50 < newHistory.length then newHistory.tail else newHistory
    { st with history := newHistory2, historyIndex := min (st.historyIndex + 1) 49 }

/-- Restoration step shared by `undo` and `redo`: every live slide whose id
occurs in the entry gets that entry's object list (deep copied in the
source); slides absent from the entry are left as they are. -/
def restoreSlides (entry : HistoryState) (ls : List SlideData) : List SlideData :=
  ls.map (fun ps =>
    match entry.slides.find? (fun hs => hs.id == ps.id) with
    | some histSlide => { ps with objects := histSlide.objects }
    | none => ps)

/-- Source `undo()`.  The source reads `history[historyIndex - 1]` without a
bounds check; under the cursor invariant (`historyIndex < history.length`)
the lookup always succeeds, and the unreachable out-of-range case is
modelled as a no-op. -/
def undo (st : AppState) : AppState :=
  if 0 < st.historyIndex then
    match st.history[(st.historyIndex - 1).toNat]? with
    | some prevState =>
      { st with
        slides := restoreSlides prevState st.slides
        currentSlideIndex := prevState.currentSlideIndex
        historyIndex := st.historyIndex - 1
        selectedObjectId := none
        editingTextId := none
        isInternalStateUpdate := true }
    | none => st
  else st

/-- Source `redo()`; see `undo` for the treatment of the lookup. -/
def redo (st : AppState) : AppState :=
  if st.historyIndex < (st.history.length : Int) - 1 then
    match st.history[(st.historyIndex + 1).toNat]? with
    | some nextState =>
      { st with
        slides := restoreSlides nextState st.slides
        currentSlideIndex := nextState.currentSlideIndex
        historyIndex := st.historyIndex + 1
        selectedObjectId := none
        editingTextId := none
        isInternalStateUpdate := true }
    | none => st
  else st

/-- The `setTimeout(() => { isInternalStateUpdate.current = false; }, 0)`
scheduled by `undo`/`redo`, firing once the restore has settled. -/
def clearRestoreFlag (st : AppState) : AppState :=
  { st with isInternalStateUpdate := false }

/-- A sequence of `saveToHistory` calls, one per completed user gesture. -/
def applySnapshots (st : AppState) (ops : List (List SlideData × Nat)) : AppState :=
  ops.foldl (fun s p => saveToHistory s p.1 p.2) st

/-! ## PPTX export transform (`generatePPTX`) -/

/-- The rectangle handed to the slide-deck encoder for one object. -/
structure PptxRect where
  x : Rat
  y : Rat
  w : Rat
  h : Rat
deriving DecidableEq

/-- Source constant `PPTX_WIDTH = 10` (inches). -/
def PPTX_WIDTH : Rat := 10

/-- Source constant `PPTX_HEIGHT = 5.625` (inches). -/
def PPTX_HEIGHT : Rat := 5.625

/-- `scaleFactor = PPTX_WIDTH / canvasWidth` computed per slide. -/
def pptxScale (canvasWidth : Nat) : Rat := PPTX_WIDTH / canvasWidth

/-- JavaScript `v || d` on an optional number: `0` is falsy. -/
def jsOrDefault (v : Option Rat) (d : Rat) : Rat :=
  match v with
  | some r => if r = 0 then d else r
  | none => d

/-- The box `generatePPTX` emits for one object: masks use the uniformly
scaled rectangle as is (`slide.addShape`); text boxes (`slide.addText`)
shift `y` by `fontSizePt * 0.005` and floor `h` at `fontSizePt * 0.02`,
where `fontSizePt = (obj.fontSize || 100) * scaleFactor * 72 * 0.9`. -/
def pptxObjectRect (canvasWidth : Nat) (obj : CanvasObject) : PptxRect :=
  let sf := pptxScale canvasWidth
  let x := obj.x * sf
  let y := obj.y * sf
  let w := obj.width * sf
  let h := obj.height * sf
  match obj.kind with
  | .mask => ⟨x, y, w, h⟩
  | .text =>
    let fontSizePt := jsOrDefault obj.fontSize 100 * sf * 72 * 0.9
    ⟨x, y - fontSizePt * 0.005, w, max h (fontSizePt * 0.02)⟩

/-! ## Geometry, handles and hit testing -/

/-- Bounding-rectangle hit test used by pointer-down and double-click. -/
def hitTestRect (obj : CanvasObject) (pos : Pos) : Bool :=
  obj.x ≤ pos.x && pos.x ≤ obj.x + obj.width &&
  obj.y ≤ pos.y && pos.y ≤ obj.y + obj.height

/-- Source `getHandles(obj)`: the eight resize-handle anchor points, in the
source's key-enumeration order. -/
def getHandles (obj : CanvasObject) : List (Handle × Pos) :=
  [ (.nw, ⟨obj.x, obj.y⟩),
    (.n, ⟨obj.x + obj.width / 2, obj.y⟩),
    (.ne, ⟨obj.x + obj.width, obj.y⟩),
    (.e, ⟨obj.x + obj.width, obj.y + obj.height / 2⟩),
    (.se, ⟨obj.x + obj.width, obj.y + obj.height⟩),
    (.s, ⟨obj.x + obj.width / 2, obj.y + obj.height⟩),
    (.sw, ⟨obj.x, obj.y + obj.height⟩),
    (.w, ⟨obj.x, obj.y + obj.height / 2⟩) ]

/-- First handle whose square hit box (side `handleSize`) contains `pos`. -/
def handleHitAt (obj : CanvasObject) (pos : Pos) (handleSize : Rat) : Option Handle :=
  ((getHandles obj).find? (fun p =>
    p.2.x - handleSize / 2 ≤ pos.x && pos.x ≤ p.2.x + handleSize / 2 &&
    p.2.y - handleSize / 2 ≤ pos.y && pos.y ≤ p.2.y + handleSize / 2)).map (fun p => p.1)

/-- The handle check at the top of the `select` branch of `handleMouseDown`
(hit area 20, "slightly larger ... for easier interaction"). -/
def selHandleHit (st : AppState) (pos : Pos) : Option Handle :=
  match st.selectedObjectId with
  | none => none
  | some oid =>
    match st.slides[st.currentSlideIndex]? with
    | none => none
    | some slide =>
      match slide.objects.find? (fun o => o.id == oid) with
      | none => none
      | some obj => handleHitAt obj pos 20

/-- `[...objects].reverse().findIndex(...)` followed by
`realIndex = length - 1 - hitIndex`: topmost (last painted) object wins.
Returns the real index together with the object found there. -/
def objHit (objects : List CanvasObject) (pos : Pos) : Option (Nat × CanvasObject) :=
  match objects.reverse.findIdx? (fun o => hitTestRect o pos) with
  | none => none
  | some hitIndex =>
    let realIndex := objects.length - 1 - hitIndex
    match objects[realIndex]? with
    | some o => some (realIndex, o)
    | none => none

/-- Replace the object list of the slide at `index`; the JS code reaches the
same effect by mutating `updatedSlides[index].objects` in place. -/
def modifySlideObjects : List SlideData → Nat → (List CanvasObject → List CanvasObject) → List SlideData
  | [], _, _ => []
  | sl :: rest, 0, f => { sl with objects := f sl.objects } :: rest
  | sl :: rest, n + 1, f => sl :: modifySlideObjects rest n f

/-- `find` the first object with the given id and mutate it in place
(source pattern `const obj = objects.find(...); Object.assign(obj, ...)`). -/
def updateFirstById (objs : List CanvasObject) (oid : String) (f : CanvasObject → CanvasObject) : List CanvasObject :=
  match objs with
  | [] => []
  | o :: rest => if o.id == oid then f o :: rest else o :: updateFirstById rest oid f

/-! ## Resize rule (`handleMouseMove`, active-handle branch) -/

/-- `activeHandle.includes('e')` on the source's handle strings. -/
def handleHasE : Handle → Bool
  | .ne | .e | .se => true
  | _ => false

/-- `activeHandle.includes('w')`. -/
def handleHasW : Handle → Bool
  | .nw | .sw | .w => true
  | _ => false

/-- `activeHandle.includes('n')`. -/
def handleHasN : Handle → Bool
  | .nw | .n | .ne => true
  | _ => false

/-- `activeHandle.includes('s')`. -/
def handleHasS : Handle → Bool
  | .se | .s | .sw => true
  | _ => false

/-- The opposite-anchor-preserving resize recomputation of
`handleMouseMove`: `e`/`s` move the right/bottom edge with a width/height
floor of 10; `w`/`n` move the left/top edge, clamped so the moving edge
stays 10 short of the fixed opposite edge (captured as `oldX + oldW`,
`oldY + oldH` before any mutation). -/
def applyResize (h : Handle) (obj : CanvasObject) (pos : Pos) : CanvasObject :=
  let oldX := obj.x
  let oldY := obj.y
  let oldW := obj.width
  let oldH := obj.height
  let o1 := if handleHasE h then { obj with width := max 10 (pos.x - obj.x) } else obj
  let o2 := if handleHasS h then { o1 with height := max 10 (pos.y - o1.y) } else o1
  let o3 :=
    if handleHasW h then
      let newX := min pos.x (oldX + oldW - 10)
      { o2 with width := oldX + oldW - newX, x := newX }
    else o2
  let o4 :=
    if handleHasN h then
      let newY := min pos.y (oldY + oldH - 10)
      { o3 with height := oldY + oldH - newY, y := newY }
    else o3
  o4

/-! ## OCR text normalization (`performOCR`, the three `.replace` rules) -/

/-- JavaScript regex class `\s` (WhiteSpace plus LineTerminator). -/
def isWsChar (c : Char) : Bool :=
  decide (c.toNat = 0x09 ∨ c.toNat = 0x0A ∨ c.toNat = 0x0B ∨ c.toNat = 0x0C ∨
    c.toNat = 0x0D ∨ c.toNat = 0x20 ∨ c.toNat = 0xA0 ∨ c.toNat = 0x1680 ∨
    (0x2000 ≤ c.toNat ∧ c.toNat ≤ 0x200A) ∨ c.toNat = 0x2028 ∨ c.toNat = 0x2029 ∨
    c.toNat = 0x202F ∨ c.toNat = 0x205F ∨ c.toNat = 0x3000 ∨ c.toNat = 0xFEFF)

/-- The source's script character class
`[぀-ゟ゠-ヿ一-鿿]` (hiragana, katakana, CJK
unified ideographs). -/
def isCjkScript (c : Char) : Bool :=
  decide ((0x3040 ≤ c.toNat ∧ c.toNat ≤ 0x309F) ∨
    (0x30A0 ≤ c.toNat ∧ c.toNat ≤ 0x30FF) ∨
    (0x4E00 ≤ c.toNat ∧ c.toNat ≤ 0x9FFF))

/-- The source's Latin/digit class `[a-zA-Z0-9]`. -/
def isLatinDigit (c : Char) : Bool :=
  decide ((0x61 ≤ c.toNat ∧ c.toNat ≤ 0x7A) ∨
    (0x41 ≤ c.toNat ∧ c.toNat ≤ 0x5A) ∨
    (0x30 ≤ c.toNat ∧ c.toNat ≤ 0x39))

/-- One global `replace(/([A])\s+(?=[B])/g, dollar-1)` pass: delete every
maximal whitespace run whose immediate predecessor is in class `A` and
whose immediate successor (the unconsumed lookahead) is in class `B`.
`fuel` bounds the recursion; the wrapper supplies `l.length`, which always
suffices because every recursive call consumes at least one character. -/
def collapseFuel (isA isB : Char → Bool) : Nat → List Char → List Char
  | 0, l => l
  | _ + 1, [] => []
  | fuel + 1, c :: rest =>
    if isA c then
      let ws := rest.takeWhile isWsChar
      let rest2 := rest.drop ws.length
      if !ws.isEmpty && rest2.head?.any isB then
        c :: collapseFuel isA isB fuel rest2
      else
        c :: collapseFuel isA isB fuel rest
    else
      c :: collapseFuel isA isB fuel rest

/-- One whitespace-collapsing rule over a character list. -/
def collapseRule (isA isB : Char → Bool) (l : List Char) : List Char :=
  collapseFuel isA isB l.length l

/-- JavaScript `String.prototype.trim`. -/
def jsTrimList (l : List Char) : List Char :=
  ((l.dropWhile isWsChar).reverse.dropWhile isWsChar).reverse

/-- JavaScript `text.trim()`. -/
def jsTrim (s : String) : String := ⟨jsTrimList s.data⟩

/-- The `cleanedText` computation of `performOCR`: trim, then the three
rules in source order — script-to-script, script-to-Latin,
Latin-to-script. -/
def cleanOCRText (s : String) : String :=
  ⟨collapseRule isLatinDigit isCjkScript
    (collapseRule isCjkScript isLatinDigit
      (collapseRule isCjkScript isCjkScript (jsTrimList s.data)))⟩

/-! ## OCR region pipeline (`performOCR`) -/

/-- One recognized line's bounding-box height (`line.bbox.y1 - line.bbox.y0`). -/
structure OCRLine where
  height : Rat
deriving DecidableEq

/-- What the OCR collaborator returns on success. -/
structure OCRResult where
  text : String
  lines : List OCRLine
deriving DecidableEq

/-- JavaScript `Math.round` (half rounds toward positive infinity). -/
def jsRound (x : Rat) : Int := ⌊x + 1 / 2⌋

/-- `calibratedSize = Math.max(12, Math.round(avgLineHeight * 1.2))` where
`avgLineHeight` is the mean line-box height, defaulting to 60 with no line
geometry. -/
def calibratedFontSize (lines : List OCRLine) : Rat :=
  let avgLineHeight : Rat :=
    if 0 < lines.length then (lines.map OCRLine.height).sum / (lines.length : Rat) else 60
  max 12 ((jsRound (avgLineHeight * 1.2) : Int) : Rat)

/-- The text object `performOCR` commits for a recognized region.
`detectedColor` abstracts `detectTextColor`, whose value depends on the
cropped pixel surface (external to this model); `newId` abstracts
`generateUUID()`. -/
def ocrTextObject (roi : CanvasObject) (result : OCRResult) (detectedColor newId : String) : CanvasObject :=
  { id := newId
    kind := .text
    x := roi.x
    y := roi.y
    width := roi.width
    height := roi.height
    content := some (cleanOCRText result.text)
    color := detectedColor
    fontSize := some (calibratedFontSize result.lines) }

/-- Source `performOCR(roi)`.  The asynchronous OCR collaborator's outcome
is passed in as `outcome`: `Except.error` models a thrown error (caught by
the source's `try`/`catch`, which alerts and leaves the model alone). -/
def performOCR (st : AppState) (roi : CanvasObject) (outcome : Except String OCRResult)
    (detectedColor newId : String) : AppState :=
  if st.slides[st.currentSlideIndex]? = none ∨ roi.width < 10 ∨ roi.height < 10 then st
  else
    match outcome with
    | .error _ => { st with isScanning := false }
    | .ok result =>
      if jsTrim result.text ≠ "" then
        let newObj := ocrTextObject roi result detectedColor newId
        let updatedSlides := modifySlideObjects st.slides st.currentSlideIndex (fun objs => objs ++ [newObj])
        saveToHistory
          { st with
            slides := updatedSlides
            selectedObjectId := some newId
            activeTool := Tool.select
            isScanning := false }
          updatedSlides st.currentSlideIndex
      else { st with isScanning := false }

/-! ## Pointer handlers -/

/-- Source `updateSelectedObject(updates)` specialised to a color update
(the only shape of update reached from `handleMouseDown`). -/
def updateSelectedObjectColor (st : AppState) (c : String) : AppState :=
  match st.selectedObjectId, st.slides[st.currentSlideIndex]? with
  | some oid, some _ =>
    { st with
      slides := modifySlideObjects st.slides st.currentSlideIndex
        (fun objs => updateFirstById objs oid (fun o => { o with color := c })) }
  | _, _ => st

/-- Source `handleMouseDown`.  `pos` is the canvas-space pointer position
(`getMousePos(e)`), `clientPos` the raw client position used by panning,
`newId` abstracts `crypto.randomUUID()`, and `sampledColor` abstracts the
pixel read by the eyedropper (external canvas contents). -/
def handleMouseDown (st : AppState) (clientPos pos : Pos) (ctrlKey : Bool) (button : Nat)
    (newId sampledColor : String) : AppState :=
  match st.slides[st.currentSlideIndex]? with
  | none => st
  | some currentSlide =>
    if st.isPanningMode || st.activeTool == Tool.pan || button == 1 then
      { st with isPanningFlag := true, panStart := clientPos, panStartOffset := st.offset }
    else
      match st.activeTool with
      | .eyedropper =>
        let st1 := { st with currentColor := sampledColor, maskColor := sampledColor }
        let st2 :=
          match st.selectedObjectId with
          | some oid =>
            let st1a :=
              match currentSlide.objects.find? (fun (o : CanvasObject) => o.id == oid) with
              | some obj => if obj.kind == ObjKind.text then { st1 with textColor := sampledColor } else st1
              | none => st1
            updateSelectedObjectColor st1a sampledColor
          | none => st1
        { st2 with activeTool := Tool.select }
      | .select =>
        match selHandleHit st pos with
        | some h => { st with activeHandle := some h }
        | none =>
          match objHit currentSlide.objects pos with
          | none => { st with selectedObjectId := none }
          | some (realIndex, obj) =>
            if ctrlKey then
              let newObj := { obj with id := newId }
              { st with
                slides := modifySlideObjects st.slides st.currentSlideIndex (fun objs => objs ++ [newObj])
                selectedObjectId := some newObj.id
                currentColor := newObj.color
                isDragging := true
                dragOffset := ⟨pos.x - newObj.x, pos.y - newObj.y⟩ }
            else
              { st with
                slides := modifySlideObjects st.slides st.currentSlideIndex
                  (fun objs => objs.eraseIdx realIndex ++ [obj])
                selectedObjectId := some obj.id
                currentColor := obj.color
                isDragging := true
                dragOffset := ⟨pos.x - obj.x, pos.y - obj.y⟩ }
      | .mask =>
        { st with
          isDrawing := true
          startPos := pos
          currentObjectRef := some
            { id := newId, kind := .mask, x := pos.x, y := pos.y, width := 0, height := 0
              color := st.currentColor } }
      | .text =>
        let newObj : CanvasObject :=
          { id := newId, kind := .text, x := pos.x, y := pos.y, width := 800, height := 150
            content := some ""
            color := if st.currentColor = "#FFFFFF" then "#000000" else st.currentColor
            fontSize := some 100 }
        let updatedSlides := modifySlideObjects st.slides st.currentSlideIndex (fun objs => objs ++ [newObj])
        saveToHistory
          { st with
            slides := updatedSlides
            selectedObjectId := some newId
            editingTextId := some newId
            currentColor := newObj.color
            activeTool := Tool.select }
          updatedSlides st.currentSlideIndex
      | .scan =>
        { st with
          isDrawing := true
          startPos := pos
          currentObjectRef := some
            { id := "scan-roi", kind := .text, x := pos.x, y := pos.y, width := 0, height := 0
              color := "#FFFFFF", content := some "" } }
      | .pan => st

/-- Source `handleMouseMove`, in the source's dispatch order: active pan,
then active resize (returns even when the selected id is stale), then the
cursor-shape update (pure DOM, not modelled), then active drag, then
draft-rectangle normalization. -/
def handleMouseMove (st : AppState) (clientPos pos : Pos) : AppState :=
  if st.isPanningFlag then
    { st with offset := ⟨st.panStartOffset.x + (clientPos.x - st.panStart.x),
                         st.panStartOffset.y + (clientPos.y - st.panStart.y)⟩ }
  else
    match st.activeHandle, st.selectedObjectId with
    | some h, some oid =>
      { st with
        slides := modifySlideObjects st.slides st.currentSlideIndex
          (fun objs => updateFirstById objs oid (fun o => applyResize h o pos)) }
    | _, _ =>
      if st.isDragging && st.selectedObjectId.isSome then
        match st.selectedObjectId with
        | some oid =>
          { st with
            slides := modifySlideObjects st.slides st.currentSlideIndex
              (fun objs => updateFirstById objs oid
                (fun o => { o with x := pos.x - st.dragOffset.x, y := pos.y - st.dragOffset.y })) }
        | none => st
      else if st.isDrawing && st.currentObjectRef.isSome then
        match st.currentObjectRef with
        | some cur =>
          let cur2 :=
            { cur with
              x := min pos.x st.startPos.x
              y := min pos.y st.startPos.y
              width := |pos.x - st.startPos.x|
              height := |pos.y - st.startPos.y| }
          { st with currentObjectRef := some cur2 }
        | none => st
      else st

/-- Source `handleMouseUp`.  The scan branch hands the draft rectangle to
the asynchronous `performOCR` (modelled separately); synchronously it
leaves the model alone.  The draw commit takes effect only above the `> 5`
size threshold.  A completed drag or resize takes one snapshot.  All
transaction flags are cleared unconditionally at the end. -/
def handleMouseUp (st : AppState) : AppState :=
  if st.isPanningFlag then { st with isPanningFlag := false }
  else
    let st1 :=
      if st.isDrawing then
        match st.currentObjectRef with
        | some cur =>
          if st.activeTool == Tool.scan then st
          else if 5 < cur.width && 5 < cur.height then
            let updatedSlides := modifySlideObjects st.slides st.currentSlideIndex (fun objs => objs ++ [cur])
            saveToHistory
              { st with
                slides := updatedSlides
                selectedObjectId := some cur.id
                activeTool := Tool.select }
              updatedSlides st.currentSlideIndex
          else st
        | none => st
      else st
    let st2 :=
      if st.isDragging || st.activeHandle.isSome then saveToHistory st1 st1.slides st1.currentSlideIndex
      else st1
    { st2 with isDrawing := false, isDragging := false, currentObjectRef := none, activeHandle := none }

/-! ## Concrete states for witnesses -/

/-- The component's initial state (the `useState` initial values and the
refs' initial values). -/
def initialState : AppState :=
  { slides := []
    currentSlideIndex := 0
    activeTool := .select
    selectedObjectId := none
    editingTextId := none
    currentColor := "#FFFFFF"
    maskColor := "#FFFFFF"
    textColor := "#000000"
    activeHandle := none
    history := []
    historyIndex := -1
    isInternalStateUpdate := false
    isDrawing := false
    isDragging := false
    isPanningFlag := false
    isPanningMode := false
    startPos := ⟨0, 0⟩
    dragOffset := ⟨0, 0⟩
    offset := ⟨0, 0⟩
    panStart := ⟨0, 0⟩
    panStartOffset := ⟨0, 0⟩
    currentObjectRef := none
    isScanning := false }

/-- A sample mask object. -/
def demoObj : CanvasObject :=
  { id := "o1", kind := .mask, x := 1, y := 2, width := 30, height := 40, color := "#FFFFFF" }

/-- A second sample mask object, painted above `demoObj`. -/
def demoObj2 : CanvasObject :=
  { id := "o2", kind := .mask, x := 200, y := 200, width := 50, height := 50, color := "#AA0000" }

/-- A sample slide holding `demoObj`. -/
def demoSlide : SlideData :=
  { id := "s1", canvas := ⟨1000, 600⟩, thumbnail := "", objects := [demoObj] }

/-- A sample slide holding `demoObj` and `demoObj2`. -/
def demoSlide2 : SlideData :=
  { id := "s1", canvas := ⟨1000, 600⟩, thumbnail := "", objects := [demoObj, demoObj2] }

/-- History entry: slide `s1` with no objects, active slide 0. -/
def demoEntry0 : HistoryState := ⟨[⟨"s1", []⟩], 0⟩

/-- History entry: slide `s1` holding `demoObj`, active slide 0. -/
def demoEntry1 : HistoryState := ⟨[⟨"s1", [demoObj]⟩], 0⟩

/-- The text object used to refute the universal form of C1. -/
def c1TextObj : CanvasObject :=
  { id := "t1", kind := .text, x := 100, y := 100, width := 200, height := 100
    content := some "hello", color := "#000000", fontSize := some 100 }

/-- Witness state for C2: displayed state matches the cursor entry
`demoEntry1` at cursor 1. -/
def c2State : AppState :=
  { initialState with slides := [demoSlide], history := [demoEntry0, demoEntry1], historyIndex := 1 }

/-- Witness state for C3 part (a): cursor one short of the last entry. -/
def c3StateA : AppState :=
  { initialState with history := [demoEntry0, demoEntry1], historyIndex := 0 }

/-- Witness state for C3 part (b): cursor 2 in a three-entry history. -/
def c3StateB : AppState :=
  { initialState with
    slides := [demoSlide]
    history := [demoEntry0, demoEntry0, demoEntry1]
    historyIndex := 2 }

/-- Witness state for C4 part (b): a full 50-entry history, cursor at 49. -/
def c4State : AppState :=
  { initialState with history := List.replicate 50 demoEntry0, historyIndex := 49 }

/-- Witness state for C9 and C10: two objects on one slide, `select` tool,
empty selection. -/
def c9State : AppState :=
  { initialState with
    slides := [demoSlide2]
    activeTool := .select
    history := [demoEntry1]
    historyIndex := 0 }

/-- A scan region of interest above the OCR size threshold. -/
def c8Roi : CanvasObject :=
  { id := "scan-roi", kind := .text, x := 5, y := 6, width := 50, height := 30
    color := "#FFFFFF", content := some "" }

/-- Witness state for C8: one slide, one history entry. -/
def c8State : AppState :=
  { initialState with slides := [demoSlide], history := [demoEntry1], historyIndex := 0 }

/-- A sample OCR collaborator result. -/
def c8Result : OCRResult := { text := "日 a", lines := [⟨30⟩] }

/-- A draft mask rectangle above the size threshold. -/
def c6Draft : CanvasObject :=
  { id := "d1", kind := .mask, x := 10, y := 10, width := 20, height := 20, color := "#FFFFFF" }

/-- Witness state for C6: a mask draw gesture in progress. -/
def c6State : AppState :=
  { initialState with
    slides := [demoSlide]
    activeTool := .mask
    isDrawing := true
    currentObjectRef := some c6Draft
    history := [demoEntry1]
    historyIndex := 0 }

/-! ## Theorems -/

/-- C5: during an active resize, a pointer-move via the `w` handle leaves
the rectangle's right edge `x + width` unchanged and never produces a
width below the 10-pixel floor; symmetrically, the `n` handle leaves the
bottom edge `y + height` unchanged and never produces a height below the
floor. -/
theorem c5_resize_w_fixes_right_edge (obj : CanvasObject) (pos : Pos) :
    (applyResize Handle.w obj pos).x + (applyResize Handle.w obj pos).width = obj.x + obj.width ∧
    10 ≤ (applyResize Handle.w obj pos).width ∧
    (applyResize Handle.n obj pos).y + (applyResize Handle.n obj pos).height = obj.y + obj.height ∧
    10 ≤ (applyResize Handle.n obj pos).height := by
  have hw := min_le_right pos.x (obj.x + obj.width - 10)
  have hn := min_le_right pos.y (obj.y + obj.height - 10)
  simp only [applyResize, handleHasE, handleHasW, handleHasN, handleHasS,
    Bool.false_eq_true, if_false, if_true, ite_false, ite_true]
  refine ⟨by ring, by linarith, by ring, by linarith⟩

/-- C1 counterexample: for a text object the PPTX export does not apply the
uniform scale factor identically to `y` — the emitted text box's `y` is
shifted by `fontSizePt * 0.005`, so on a 1000-pixel-wide slide the
object's fractional vertical position is not preserved. -/
theorem c1_counterexample :
    (pptxObjectRect 1000 c1TextObj).y ≠ c1TextObj.y * pptxScale 1000 ∧
    (pptxObjectRect 1000 c1TextObj).y / ((600 : Rat) * pptxScale 1000) ≠ c1TextObj.y / 600 := by
  constructor <;>
    norm_num [pptxObjectRect, pptxScale, PPTX_WIDTH, jsOrDefault, c1TextObj]

/-- C1 (amended): the PPTX export maps every **mask** object's rectangle by
the single uniform scale factor `PPTX_WIDTH / canvasWidth` applied
identically to x, y, width and height, so a mask's position and size as a
fraction of the base image are preserved exactly; for text objects this
holds for x and width (y and height get a font-derived adjustment).  In
particular, for a 1000-by-600 slide with a mask from (100,100) to
(300,200), the exported rectangle is (1,1)-(3,2) inches, whose fractional
position and size are exactly (1/10, 1/6)-(3/10, 1/3). -/
theorem c1_amended :
    (∀ (cw ch : Nat) (obj : CanvasObject), 0 < cw → 0 < ch → obj.kind = ObjKind.mask →
      (pptxObjectRect cw obj).x / PPTX_WIDTH = obj.x / cw ∧
      (pptxObjectRect cw obj).y / ((ch : Rat) * pptxScale cw) = obj.y / ch ∧
      (pptxObjectRect cw obj).w / PPTX_WIDTH = obj.width / cw ∧
      (pptxObjectRect cw obj).h / ((ch : Rat) * pptxScale cw) = obj.height / ch) ∧
    (∀ (cw : Nat) (obj : CanvasObject), 0 < cw →
      (pptxObjectRect cw obj).x / PPTX_WIDTH = obj.x / cw ∧
      (pptxObjectRect cw obj).w / PPTX_WIDTH = obj.width / cw) ∧
    (pptxObjectRect 1000
        { id := "m1", kind := .mask, x := 100, y := 100, width := 200, height := 100
          color := "#FFFFFF" } = ⟨1, 1, 2, 1⟩ ∧
      (1 : Rat) / PPTX_WIDTH = 1 / 10 ∧
      ((1 : Rat) + 2) / PPTX_WIDTH = 3 / 10 ∧
      (1 : Rat) / ((600 : Rat) * pptxScale 1000) = 1 / 6 ∧
      ((1 : Rat) + 1) / ((600 : Rat) * pptxScale 1000) = 1 / 3) := by
  have hx : ∀ (cw : Nat) (v : Rat), 0 < cw → v * pptxScale cw / PPTX_WIDTH = v / cw := by
    intro cw v hcw
    have hcw0 : ((cw : Rat)) ≠ 0 := by positivity
    have h10 : (PPTX_WIDTH : Rat) ≠ 0 := by norm_num [PPTX_WIDTH]
    field_simp [pptxScale]
    ring
  have hy : ∀ (cw ch : Nat) (v : Rat), 0 < cw → 0 < ch →
      v * pptxScale cw / ((ch : Rat) * pptxScale cw) = v / ch := by
    intro cw ch v hcw hch
    have hcw0 : ((cw : Rat)) ≠ 0 := by positivity
    have hch0 : ((ch : Rat)) ≠ 0 := by positivity
    have hsf : pptxScale cw ≠ 0 := by
      simp only [pptxScale, PPTX_WIDTH]
      positivity
    field_simp
    ring
  refine ⟨?_, ?_, by norm_num [pptxObjectRect, pptxScale, PPTX_WIDTH]⟩
  · intro cw ch obj hcw hch hmask
    simp only [pptxObjectRect, hmask]
    exact ⟨hx cw obj.x hcw, hy cw ch obj.y hcw hch, hx cw obj.width hcw, hy cw ch obj.height hcw hch⟩
  · intro cw obj hcw
    cases hkind : obj.kind <;>
      simp only [pptxObjectRect, hkind] <;>
      exact ⟨hx cw obj.x hcw, hx cw obj.width hcw⟩

/-! ### History helper lemmas -/

theorem undo_eq (st : AppState) (h0 : 0 < st.historyIndex) (prev : HistoryState)
    (hprev : st.history[(st.historyIndex - 1).toNat]? = some prev) :
    undo st =
      { st with
        slides := restoreSlides prev st.slides
        currentSlideIndex := prev.currentSlideIndex
        historyIndex := st.historyIndex - 1
        selectedObjectId := none
        editingTextId := none
        isInternalStateUpdate := true } := by
  unfold undo
  rw [if_pos h0, hprev]

theorem redo_eq (st : AppState) (hguard : st.historyIndex < (st.history.length : Int) - 1)
    (nxt : HistoryState) (hnxt : st.history[(st.historyIndex + 1).toNat]? = some nxt) :
    redo st =
      { st with
        slides := restoreSlides nxt st.slides
        currentSlideIndex := nxt.currentSlideIndex
        historyIndex := st.historyIndex + 1
        selectedObjectId := none
        editingTextId := none
        isInternalStateUpdate := true } := by
  unfold redo
  rw [if_pos hguard, hnxt]

theorem redo_noop (st : AppState) (hguard : ¬ st.historyIndex < (st.history.length : Int) - 1) :
    redo st = st := by
  unfold redo
  rw [if_neg hguard]

theorem saveToHistory_eq (st : AppState) (cs : List SlideData) (idx : Nat)
    (hflag : st.isInternalStateUpdate = false)
    (hsmall : (st.history.take (st.historyIndex + 1).toNat).length + 1 ≤ 50) :
    saveToHistory st cs idx =
      { st with
        history := st.history.take (st.historyIndex + 1).toNat ++ [mkHistoryState cs idx]
        historyIndex := min (st.historyIndex + 1) 49 } := by
  unfold saveToHistory
  rw [if_neg (by simp [hflag])]
  have hlen : ¬ 50 <
      (st.history.take (st.historyIndex + 1).toNat ++ [mkHistoryState cs idx]).length := by
    simp only [List.length_append, List.length_singleton]
    omega
  simp only [hlen, if_false, ite_false]

/-- Double restoration collapses to the identity when the outer entry
matches the live slides exactly. -/
theorem restore_restore (prev cur : HistoryState) (ls : List SlideData)
    (h : ∀ sl ∈ ls, cur.slides.find? (fun hs => hs.id == sl.id) = some ⟨sl.id, sl.objects⟩) :
    restoreSlides cur (restoreSlides prev ls) = ls := by
  induction ls with
  | nil => rfl
  | cons sl rest ih =>
    have hsl := h sl (List.mem_cons_self _ _)
    have hrest := ih (fun x hx => h x (List.mem_cons_of_mem _ hx))
    simp only [restoreSlides, List.map_cons, List.map_map] at hrest ⊢
    simp only [List.cons.injEq]
    refine ⟨?_, hrest⟩
    rcases hfind : prev.slides.find? (fun hs => hs.id == sl.id) with _ | p <;>
      simp only [hfind, hsl]

/-- C2: with the documented cursor invariant — the cursor entry `cur`
matches the currently displayed state slide by slide, and records the
active slide index — an `undo` followed immediately by a `redo` restores
exactly the document state (every slide, hence every slide's object
sequence, and the active slide index) that existed before the `undo`. -/
theorem c2_undo_then_redo (st : AppState) (cur : HistoryState)
    (h0 : 0 < st.historyIndex)
    (h1 : st.historyIndex < (st.history.length : Int))
    (hcur : st.history[st.historyIndex.toNat]? = some cur)
    (hmatch : ∀ sl ∈ st.slides, cur.slides.find? (fun hs => hs.id == sl.id) = some ⟨sl.id, sl.objects⟩)
    (hidx : st.currentSlideIndex = cur.currentSlideIndex) :
    (redo (undo st)).slides = st.slides ∧
    (redo (undo st)).currentSlideIndex = st.currentSlideIndex := by
  have hlt : (st.historyIndex - 1).toNat < st.history.length := by omega
  obtain ⟨prev, hprev⟩ : ∃ e, st.history[(st.historyIndex - 1).toNat]? = some e :=
    ⟨_, List.getElem?_eq_getElem hlt⟩
  have hu := undo_eq st h0 prev hprev
  have e1h : (undo st).history = st.history := by rw [hu]
  have e1i : (undo st).historyIndex = st.historyIndex - 1 := by rw [hu]
  have e1s : (undo st).slides = restoreSlides prev st.slides := by rw [hu]
  have hguard2 : (undo st).historyIndex < ((undo st).history.length : Int) - 1 := by
    rw [e1h, e1i]; omega
  have hlook2 : (undo st).history[((undo st).historyIndex + 1).toNat]? = some cur := by
    rw [e1h, e1i]
    have hnat : (st.historyIndex - 1 + 1).toNat = st.historyIndex.toNat := by omega
    rw [hnat, hcur]
  have hr := redo_eq (undo st) hguard2 cur hlook2
  constructor
  · rw [hr]
    show restoreSlides cur (undo st).slides = st.slides
    rw [e1s]
    exact restore_restore prev cur st.slides hmatch
  · rw [hr]
    exact hidx.symm

/-- C3: (a) a snapshot taken while the cursor is not at the last history
entry first discards every entry after the cursor and then appends the new
snapshot; (b) consequently, after `undo`, `undo`, a new edit (whose
gesture-end snapshot runs once the restore flag has been cleared), a
subsequent `redo` is a no-op. -/
theorem c3_truncation_and_redo_noop :
    (∀ (st : AppState) (cs : List SlideData) (idx : Nat),
        st.isInternalStateUpdate = false →
        (st.historyIndex + 1).toNat < st.history.length →
        st.history.length ≤ 50 →
        (saveToHistory st cs idx).history =
          st.history.take (st.historyIndex + 1).toNat ++ [mkHistoryState cs idx]) ∧
    (∀ (st : AppState) (cs : List SlideData) (idx : Nat),
        1 < st.historyIndex →
        st.historyIndex < (st.history.length : Int) →
        st.history.length ≤ 50 →
        redo (saveToHistory (clearRestoreFlag (undo (undo st))) cs idx) =
          saveToHistory (clearRestoreFlag (undo (undo st))) cs idx) := by
  constructor
  · intro st cs idx hflag hcursor hbound
    have hsmall : (st.history.take (st.historyIndex + 1).toNat).length + 1 ≤ 50 := by
      simp only [List.length_take]
      omega
    rw [saveToHistory_eq st cs idx hflag hsmall]
  · intro st cs idx h2 hlen hbound
    have hlt1 : (st.historyIndex - 1).toNat < st.history.length := by omega
    obtain ⟨prev1, hprev1⟩ : ∃ e, st.history[(st.historyIndex - 1).toNat]? = some e :=
      ⟨_, List.getElem?_eq_getElem hlt1⟩
    have hu1 := undo_eq st (by omega) prev1 hprev1
    have e1h : (undo st).history = st.history := by rw [hu1]
    have e1i : (undo st).historyIndex = st.historyIndex - 1 := by rw [hu1]
    have hguard2 : 0 < (undo st).historyIndex := by rw [e1i]; omega
    have hlt2 : ((undo st).historyIndex - 1).toNat < (undo st).history.length := by
      rw [e1i, e1h]; omega
    obtain ⟨prev2, hprev2⟩ : ∃ e, (undo st).history[((undo st).historyIndex - 1).toNat]? = some e :=
      ⟨_, List.getElem?_eq_getElem hlt2⟩
    have hu2 := undo_eq (undo st) hguard2 prev2 hprev2
    have e2h : (undo (undo st)).history = st.history := by rw [hu2]; exact e1h
    have e2i : (undo (undo st)).historyIndex = st.historyIndex - 2 := by
      rw [hu2]
      show (undo st).historyIndex - 1 = st.historyIndex - 2
      rw [e1i]
      omega
    have e3h : (clearRestoreFlag (undo (undo st))).history = st.history := e2h
    have e3i : (clearRestoreFlag (undo (undo st))).historyIndex = st.historyIndex - 2 := e2i
    have e3f : (clearRestoreFlag (undo (undo st))).isInternalStateUpdate = false := rfl
    have hsmall :
        ((clearRestoreFlag (undo (undo st))).history.take
            ((clearRestoreFlag (undo (undo st))).historyIndex + 1).toNat).length + 1 ≤ 50 := by
      rw [e3h, e3i]
      simp only [List.length_take]
      omega
    have hs4 := saveToHistory_eq (clearRestoreFlag (undo (undo st))) cs idx e3f hsmall
    have e4i : (saveToHistory (clearRestoreFlag (undo (undo st))) cs idx).historyIndex =
        min (st.historyIndex - 2 + 1) 49 := by
      rw [hs4]
      show min ((clearRestoreFlag (undo (undo st))).historyIndex + 1) 49 =
        min (st.historyIndex - 2 + 1) 49
      rw [e3i]
    have e4h : ((saveToHistory (clearRestoreFlag (undo (undo st))) cs idx).history.length : Int) =
        st.historyIndex - 1 + 1 := by
      rw [hs4]
      show (((clearRestoreFlag (undo (undo st))).history.take
          ((clearRestoreFlag (undo (undo st))).historyIndex + 1).toNat ++
            [mkHistoryState cs idx]).length : Int) = st.historyIndex - 1 + 1
      rw [e3h, e3i]
      simp only [List.length_append, List.length_take, List.length_singleton]
      omega
    apply redo_noop
    rw [e4i, e4h]
    omega

/-- One snapshot keeps the history within the 50-entry bound. -/
theorem saveToHistory_length_le (st : AppState) (cs : List SlideData) (idx : Nat)
    (h : st.history.length ≤ 50) : (saveToHistory st cs idx).history.length ≤ 50 := by
  unfold saveToHistory
  split
  · exact h
  · show (if 50 < (st.history.take (st.historyIndex + 1).toNat ++ [mkHistoryState cs idx]).length
        then (st.history.take (st.historyIndex + 1).toNat ++ [mkHistoryState cs idx]).tail
        else st.history.take (st.historyIndex + 1).toNat ++ [mkHistoryState cs idx]).length ≤ 50
    split <;>
      rename_i hsplit <;>
      simp only [List.length_tail, List.length_append, List.length_take,
        List.length_singleton] at hsplit ⊢ <;>
      omega

/-- C4: (a) starting within the 50-entry bound, no sequence of snapshot
operations ever pushes the history length above 50; (b) when the bound
would be exceeded (50 entries, cursor at 49), a snapshot evicts the oldest
entry (index 0) before keeping the new one at the end. -/
theorem c4_bound_and_eviction :
    (∀ (st : AppState) (ops : List (List SlideData × Nat)),
        st.history.length ≤ 50 → (applySnapshots st ops).history.length ≤ 50) ∧
    (∀ (st : AppState) (cs : List SlideData) (idx : Nat),
        st.isInternalStateUpdate = false →
        st.history.length = 50 →
        st.historyIndex = 49 →
        (saveToHistory st cs idx).history = st.history.tail ++ [mkHistoryState cs idx]) := by
  constructor
  · intro st ops
    induction ops generalizing st with
    | nil => intro h; exact h
    | cons op rest ih =>
      intro h
      exact ih (saveToHistory st op.1 op.2) (saveToHistory_length_le st op.1 op.2 h)
  · intro st cs idx hflag hlen hhi
    unfold saveToHistory
    rw [if_neg (by simp [hflag])]
    have htake : st.history.take (st.historyIndex + 1).toNat = st.history := by
      rw [hhi]
      exact List.take_of_length_le (by omega)
    rw [htake]
    have hgt : 50 < (st.history ++ [mkHistoryState cs idx]).length := by
      simp only [List.length_append, List.length_singleton]
      omega
    show (if 50 < (st.history ++ [mkHistoryState cs idx]).length
        then (st.history ++ [mkHistoryState cs idx]).tail
        else st.history ++ [mkHistoryState cs idx]) = st.history.tail ++ [mkHistoryState cs idx]
    rw [if_pos hgt]
    rcases hH : st.history with _ | ⟨a, t⟩
    · rw [hH] at hlen; simp at hlen
    · rfl

/-- C1 witness: the amended theorem applied to the 1000-by-600 scenario. -/
theorem c1_witness :
    (pptxObjectRect 1000
        { id := "m1", kind := .mask, x := 100, y := 100, width := 200, height := 100
          color := "#FFFFFF" }).x / PPTX_WIDTH =
      (100 : Rat) / 1000 ∧
    (pptxObjectRect 1000
        { id := "m1", kind := .mask, x := 100, y := 100, width := 200, height := 100
          color := "#FFFFFF" }).y / ((600 : Rat) * pptxScale 1000) =
      (100 : Rat) / 600 :=
  ⟨(c1_amended.1 1000 600 _ (by decide) (by decide) rfl).1,
   (c1_amended.1 1000 600 _ (by decide) (by decide) rfl).2.1⟩

/-- C2 witness: undo-then-redo is the identity on the demo document. -/
theorem c2_witness :
    (redo (undo c2State)).slides = c2State.slides ∧
    (redo (undo c2State)).currentSlideIndex = c2State.currentSlideIndex :=
  c2_undo_then_redo c2State demoEntry1 (by decide) (by decide) rfl (by decide) rfl

/-- C3 witness: both parts applied at concrete histories. -/
theorem c3_witness :
    (saveToHistory c3StateA [] 0).history =
      c3StateA.history.take (c3StateA.historyIndex + 1).toNat ++ [mkHistoryState [] 0] ∧
    redo (saveToHistory (clearRestoreFlag (undo (undo c3StateB))) [] 0) =
      saveToHistory (clearRestoreFlag (undo (undo c3StateB))) [] 0 :=
  ⟨c3_truncation_and_redo_noop.1 c3StateA [] 0 rfl (by decide) (by decide),
   c3_truncation_and_redo_noop.2 c3StateB [] 0 (by decide) (by decide) (by decide)⟩

/-- C6: on pointer-up of a mask draw gesture, a draft whose width or height
is at or below the 5-pixel threshold commits nothing — the slides and the
history are untouched; otherwise exactly one new mask object is appended
to the current slide, it becomes the selection, the tool returns to
`select`, and exactly one history snapshot of the new document state is
appended. -/
theorem c6_draw_commit (st : AppState) (draft : CanvasObject)
    (hpan : st.isPanningFlag = false)
    (hdraw : st.isDrawing = true)
    (href : st.currentObjectRef = some draft)
    (htool : st.activeTool = Tool.mask)
    (hdrag : st.isDragging = false)
    (hhandle : st.activeHandle = none)
    (hflag : st.isInternalStateUpdate = false)
    (hbound : st.history.length ≤ 49) :
    ((draft.width ≤ 5 ∨ draft.height ≤ 5) →
      (handleMouseUp st).slides = st.slides ∧ (handleMouseUp st).history = st.history) ∧
    (5 < draft.width → 5 < draft.height →
      (handleMouseUp st).slides =
        modifySlideObjects st.slides st.currentSlideIndex (fun objs => objs ++ [draft]) ∧
      (handleMouseUp st).selectedObjectId = some draft.id ∧
      (handleMouseUp st).activeTool = Tool.select ∧
      (handleMouseUp st).history =
        st.history.take (st.historyIndex + 1).toNat ++
          [mkHistoryState
            (modifySlideObjects st.slides st.currentSlideIndex (fun objs => objs ++ [draft]))
            st.currentSlideIndex]) := by
  have hscan : (Tool.mask == Tool.scan) = false := rfl
  constructor
  · intro hsmall5
    have hb : (decide (5 < draft.width) && decide (5 < draft.height)) = false := by
      rcases hsmall5 with h | h <;> simp [not_lt.mpr h]
    simp only [handleMouseUp, hpan, hdraw, href, htool, hdrag, hhandle, hscan, hb,
      Bool.false_eq_true, if_false, ite_false, if_true, ite_true, Option.isSome_none,
      Bool.or_self, Bool.false_or]
    exact ⟨trivial, trivial⟩
  · intro hw hh
    have hb : (decide (5 < draft.width) && decide (5 < draft.height)) = true := by
      simp [hw, hh]
    have hsmall :
        (st.history.take (st.historyIndex + 1).toNat).length + 1 ≤ 50 := by
      simp only [List.length_take]
      omega
    simp only [handleMouseUp, hpan, hdraw, href, htool, hdrag, hhandle, hscan, hb,
      Bool.false_eq_true, if_false, ite_false, if_true, ite_true, Option.isSome_none,
      Bool.or_self, Bool.false_or]
    rw [saveToHistory_eq]
    · exact ⟨rfl, rfl, rfl, rfl⟩
    · exact hflag
    · exact hsmall

/-- C6 witness: the commit branch at a 20-by-20 draft. -/
theorem c6_witness :
    (handleMouseUp c6State).slides =
      modifySlideObjects c6State.slides c6State.currentSlideIndex (fun objs => objs ++ [c6Draft]) ∧
    (handleMouseUp c6State).selectedObjectId = some c6Draft.id ∧
    (handleMouseUp c6State).activeTool = Tool.select ∧
    (handleMouseUp c6State).history =
      c6State.history.take (c6State.historyIndex + 1).toNat ++
        [mkHistoryState
          (modifySlideObjects c6State.slides c6State.currentSlideIndex (fun objs => objs ++ [c6Draft]))
          c6State.currentSlideIndex] :=
  (c6_draw_commit c6State c6Draft rfl rfl rfl rfl rfl rfl rfl (by decide)).2
    (by norm_num [c6Draft]) (by norm_num [c6Draft])

/-! ### OCR text normalization lemmas -/

theorem collapseFuel_nil (isA isB : Char → Bool) (fuel : Nat) :
    collapseFuel isA isB fuel [] = [] := by
  cases fuel <;> rfl

theorem collapseFuel_step (isA isB : Char → Bool) (fuel : Nat) (c : Char) (rest : List Char) :
    collapseFuel isA isB (fuel + 1) (c :: rest) =
      if isA c then
        let ws := rest.takeWhile isWsChar
        let rest2 := rest.drop ws.length
        if !ws.isEmpty && rest2.head?.any isB then
          c :: collapseFuel isA isB fuel rest2
        else
          c :: collapseFuel isA isB fuel rest
      else
        c :: collapseFuel isA isB fuel rest := rfl

theorem collapseFuel_one (isA isB : Char → Bool) (fuel : Nat) (c : Char) :
    collapseFuel isA isB (fuel + 1) [c] = [c] := by
  rw [collapseFuel_step]
  cases hA : isA c <;> simp [hA, collapseFuel_nil]

/-- A whitespace run flanked by an `A` and a `B` character is deleted;
anything else of the three-character shape `[a, space, b]` is kept. -/
theorem collapseRule_three (isA isB : Char → Bool) (a b : Char) (hwsb : isWsChar b = false) :
    collapseRule isA isB [a, ' ', b] = if isA a && isB b then [a, b] else [a, ' ', b] := by
  have hsp : isWsChar ' ' = true := by decide
  have htwo : collapseFuel isA isB 2 [' ', b] = [' ', b] := by
    rw [collapseFuel_step isA isB 1 ' ' [b]]
    cases hA2 : isA ' ' <;>
      simp [hA2, hwsb, collapseFuel_one, List.takeWhile_cons]
  show collapseFuel isA isB 3 [a, ' ', b] = _
  rw [collapseFuel_step isA isB 2 a [' ', b]]
  cases hA : isA a with
  | false => simp [hA, htwo]
  | true =>
    have hws : List.takeWhile isWsChar [' ', b] = [' '] := by
      simp [List.takeWhile_cons, hsp, hwsb]
    simp only [hA, if_true, ite_true, hws, List.isEmpty_cons, Bool.not_false,
      List.length_singleton, List.drop_succ_cons, List.drop_zero, List.head?_cons,
      Option.any_some, Bool.true_and]
    cases hB : isB b with
    | false => simp [hB, htwo]
    | true => simp [hB, collapseFuel_one isA isB 1 b]

/-- No whitespace between the two characters: nothing is collapsed. -/
theorem collapseRule_pair (isA isB : Char → Bool) (a b : Char) (hwsb : isWsChar b = false) :
    collapseRule isA isB [a, b] = [a, b] := by
  show collapseFuel isA isB 2 [a, b] = _
  rw [collapseFuel_step isA isB 1 a [b]]
  cases hA : isA a <;>
    simp [hA, hwsb, collapseFuel_one, List.takeWhile_cons]

theorem not_ws_of_cjk {c : Char} (h : isCjkScript c = true) : isWsChar c = false := by
  simp only [isCjkScript, decide_eq_true_eq] at h
  simp only [isWsChar, decide_eq_false_iff_not]
  omega

theorem not_ws_of_latin {c : Char} (h : isLatinDigit c = true) : isWsChar c = false := by
  simp only [isLatinDigit, decide_eq_true_eq] at h
  simp only [isWsChar, decide_eq_false_iff_not]
  omega

theorem not_latin_of_cjk {c : Char} (h : isCjkScript c = true) : isLatinDigit c = false := by
  simp only [isCjkScript, decide_eq_true_eq] at h
  simp only [isLatinDigit, decide_eq_false_iff_not]
  omega

theorem not_cjk_of_latin {c : Char} (h : isLatinDigit c = true) : isCjkScript c = false := by
  simp only [isLatinDigit, decide_eq_true_eq] at h
  simp only [isCjkScript, decide_eq_false_iff_not]
  omega

/-- C7 counterexample: a space between a script (CJK) character and a Latin
letter is **not** preserved by the normalization — the second rule deletes
it. -/
theorem c7_counterexample :
    cleanOCRText "日 a" ≠ "日 a" ∧ cleanOCRText "日 a" = "日a" := by
  constructor <;> decide

/-- C7 (amended): the three rules, applied in the source order
script-to-script, script-to-Latin, Latin-to-script, collapse the
whitespace between two adjacent script (CJK) characters **and** between a
script character and a Latin/digit character in either order; only
whitespace between two Latin/digit characters is preserved. -/
theorem c7_amended (a b : Char)
    (ha : isCjkScript a = true ∨ isLatinDigit a = true)
    (hb : isCjkScript b = true ∨ isLatinDigit b = true) :
    cleanOCRText (String.mk [a, ' ', b]) =
      if isLatinDigit a && isLatinDigit b then String.mk [a, ' ', b]
      else String.mk [a, b] := by
  have hwa : isWsChar a = false := by
    rcases ha with h | h
    exacts [not_ws_of_cjk h, not_ws_of_latin h]
  have hwb : isWsChar b = false := by
    rcases hb with h | h
    exacts [not_ws_of_cjk h, not_ws_of_latin h]
  have htrim : jsTrimList [a, ' ', b] = [a, ' ', b] := by
    simp [jsTrimList, List.dropWhile_cons, hwa, hwb]
  show (⟨collapseRule isLatinDigit isCjkScript
      (collapseRule isCjkScript isLatinDigit
        (collapseRule isCjkScript isCjkScript (jsTrimList [a, ' ', b])))⟩ : String) = _
  rw [htrim]
  rcases ha with hca | hla <;> rcases hb with hcb | hlb
  · rw [collapseRule_three isCjkScript isCjkScript a b hwb, if_pos (by simp [hca, hcb]),
      collapseRule_pair isCjkScript isLatinDigit a b hwb,
      collapseRule_pair isLatinDigit isCjkScript a b hwb,
      if_neg (by simp [not_latin_of_cjk hca])]
  · rw [collapseRule_three isCjkScript isCjkScript a b hwb,
      if_neg (by simp [not_cjk_of_latin hlb]),
      collapseRule_three isCjkScript isLatinDigit a b hwb, if_pos (by simp [hca, hlb]),
      collapseRule_pair isLatinDigit isCjkScript a b hwb,
      if_neg (by simp [not_latin_of_cjk hca])]
  · rw [collapseRule_three isCjkScript isCjkScript a b hwb,
      if_neg (by simp [not_cjk_of_latin hla]),
      collapseRule_three isCjkScript isLatinDigit a b hwb,
      if_neg (by simp [not_cjk_of_latin hla]),
      collapseRule_three isLatinDigit isCjkScript a b hwb, if_pos (by simp [hla, hcb]),
      if_neg (by simp [not_latin_of_cjk hcb])]
  · rw [collapseRule_three isCjkScript isCjkScript a b hwb,
      if_neg (by simp [not_cjk_of_latin hla]),
      collapseRule_three isCjkScript isLatinDigit a b hwb,
      if_neg (by simp [not_cjk_of_latin hla]),
      collapseRule_three isLatinDigit isCjkScript a b hwb,
      if_neg (by simp [not_cjk_of_latin hlb]),
      if_pos (by simp [hla, hlb])]

/-- C7 witness: the amended rule applied to a script-then-Latin pair. -/
theorem c7_witness :
    cleanOCRText (String.mk ['日', ' ', 'A']) = String.mk ['日', 'A'] := by
  have h := c7_amended '日' 'A' (Or.inl (by decide)) (Or.inr (by decide))
  rw [h, if_neg (by decide)]

/-- C8: the OCR region pipeline commits a new text object — appended to the
current slide, selected, tool back to `select`, one history snapshot — iff
the region meets the 10-pixel threshold in both dimensions, the
collaborator succeeds, and the recognized text is non-empty after
trimming; in every other case (sub-threshold region, missing slide,
collaborator error, empty text) the document model — slides, history,
selection, tool — is left exactly as it was. -/
theorem c8_ocr_commit_iff (st : AppState) (roi : CanvasObject) (outcome : Except String OCRResult)
    (detectedColor newId : String)
    (hflag : st.isInternalStateUpdate = false)
    (hbound : st.history.length ≤ 49) :
    (∀ result : OCRResult,
      st.currentSlideIndex < st.slides.length → 10 ≤ roi.width → 10 ≤ roi.height →
      outcome = Except.ok result → jsTrim result.text ≠ "" →
      (performOCR st roi outcome detectedColor newId).slides =
        modifySlideObjects st.slides st.currentSlideIndex
          (fun objs => objs ++ [ocrTextObject roi result detectedColor newId]) ∧
      (performOCR st roi outcome detectedColor newId).selectedObjectId = some newId ∧
      (performOCR st roi outcome detectedColor newId).activeTool = Tool.select ∧
      (performOCR st roi outcome detectedColor newId).history =
        st.history.take (st.historyIndex + 1).toNat ++
          [mkHistoryState
            (modifySlideObjects st.slides st.currentSlideIndex
              (fun objs => objs ++ [ocrTextObject roi result detectedColor newId]))
            st.currentSlideIndex]) ∧
    ((¬ st.currentSlideIndex < st.slides.length) ∨ roi.width < 10 ∨ roi.height < 10 ∨
        (∃ e, outcome = Except.error e) ∨
        (∃ result, outcome = Except.ok result ∧ jsTrim result.text = "") →
      (performOCR st roi outcome detectedColor newId).slides = st.slides ∧
      (performOCR st roi outcome detectedColor newId).history = st.history ∧
      (performOCR st roi outcome detectedColor newId).selectedObjectId = st.selectedObjectId ∧
      (performOCR st roi outcome detectedColor newId).activeTool = st.activeTool) := by
  constructor
  · intro result hlen hw hh hok htext
    unfold performOCR
    have hguard : ¬(st.slides[st.currentSlideIndex]? = none ∨ roi.width < 10 ∨ roi.height < 10) := by
      rintro (h | h | h)
      · rw [List.getElem?_eq_getElem hlen] at h
        exact Option.noConfusion h
      · exact absurd h (not_lt.mpr hw)
      · exact absurd h (not_lt.mpr hh)
    rw [if_neg hguard, hok]
    dsimp only
    rw [if_pos htext]
    rw [saveToHistory_eq]
    · exact ⟨rfl, rfl, rfl, rfl⟩
    · exact hflag
    · show (st.history.take (st.historyIndex + 1).toNat).length + 1 ≤ 50
      simp only [List.length_take]
      omega
  · intro hcase
    unfold performOCR
    by_cases hguard : st.slides[st.currentSlideIndex]? = none ∨ roi.width < 10 ∨ roi.height < 10
    · rw [if_pos hguard]
      exact ⟨rfl, rfl, rfl, rfl⟩
    · rw [if_neg hguard]
      rcases hcase with h | h | h | ⟨e, he⟩ | ⟨result, hok, hempty⟩
      · exact absurd (Or.inl (List.getElem?_eq_none (not_lt.mp h))) hguard
      · exact absurd (Or.inr (Or.inl h)) hguard
      · exact absurd (Or.inr (Or.inr h)) hguard
      · rw [he]
        exact ⟨rfl, rfl, rfl, rfl⟩
      · rw [hok]
        dsimp only
        rw [if_neg (not_not_intro hempty)]
        exact ⟨rfl, rfl, rfl, rfl⟩

/-- C8 witness: the commit branch at a 50-by-30 region with recognized
text. -/
theorem c8_witness :
    (performOCR c8State c8Roi (Except.ok c8Result) "#112233" "n1").slides =
      modifySlideObjects c8State.slides c8State.currentSlideIndex
        (fun objs => objs ++ [ocrTextObject c8Roi c8Result "#112233" "n1"]) ∧
    (performOCR c8State c8Roi (Except.ok c8Result) "#112233" "n1").selectedObjectId = some "n1" ∧
    (performOCR c8State c8Roi (Except.ok c8Result) "#112233" "n1").activeTool = Tool.select ∧
    (performOCR c8State c8Roi (Except.ok c8Result) "#112233" "n1").history =
      c8State.history.take (c8State.historyIndex + 1).toNat ++
        [mkHistoryState
          (modifySlideObjects c8State.slides c8State.currentSlideIndex
            (fun objs => objs ++ [ocrTextObject c8Roi c8Result "#112233" "n1"]))
          c8State.currentSlideIndex] :=
  (c8_ocr_commit_iff c8State c8Roi (Except.ok c8Result) "#112233" "n1" rfl (by decide)).1
    c8Result (by decide) (by decide) (by decide) rfl (by decide)

/-- A successful hit yields the object actually stored at the hit index. -/
theorem objHit_getElem {objects : List CanvasObject} {pos : Pos} {ri : Nat} {obj : CanvasObject}
    (h : objHit objects pos = some (ri, obj)) : objects[ri]? = some obj := by
  unfold objHit at h
  rcases hf : objects.reverse.findIdx? (fun o => hitTestRect o pos) with _ | i <;> rw [hf] at h
  · exact Option.noConfusion h
  · dsimp only at h
    rcases hg : objects[objects.length - 1 - i]? with _ | o2 <;> rw [hg] at h
    · exact Option.noConfusion h
    · injection h with h3
      rw [Prod.mk.injEq] at h3
      obtain ⟨h4, h5⟩ := h3
      subst h4
      subst h5
      exact hg

/-- C9: in `select` mode, a pointer-down carrying the duplicate modifier
(Ctrl) on a hit object appends a clone with the fresh identity `newId` and
geometry/content/color identical to the original at the end of the slide's
object sequence, leaves the original at its position `ri`, selects the
clone, and begins dragging it (grab offset relative to the clone's
corner). -/
theorem c9_ctrl_duplicate (st : AppState) (clientPos pos : Pos) (newId sampled : String)
    (slide : SlideData) (ri : Nat) (obj : CanvasObject)
    (hslide : st.slides[st.currentSlideIndex]? = some slide)
    (hpanmode : st.isPanningMode = false)
    (htool : st.activeTool = Tool.select)
    (hhandle : selHandleHit st pos = none)
    (hhit : objHit slide.objects pos = some (ri, obj)) :
    (handleMouseDown st clientPos pos true 0 newId sampled).slides =
      modifySlideObjects st.slides st.currentSlideIndex
        (fun objs => objs ++ [{ obj with id := newId }]) ∧
    (handleMouseDown st clientPos pos true 0 newId sampled).selectedObjectId = some newId ∧
    (handleMouseDown st clientPos pos true 0 newId sampled).isDragging = true ∧
    (handleMouseDown st clientPos pos true 0 newId sampled).dragOffset =
      ⟨pos.x - obj.x, pos.y - obj.y⟩ ∧
    ({ obj with id := newId } : CanvasObject).id = newId ∧
    ({ obj with id := newId } : CanvasObject).kind = obj.kind ∧
    ({ obj with id := newId } : CanvasObject).x = obj.x ∧
    ({ obj with id := newId } : CanvasObject).y = obj.y ∧
    ({ obj with id := newId } : CanvasObject).width = obj.width ∧
    ({ obj with id := newId } : CanvasObject).height = obj.height ∧
    ({ obj with id := newId } : CanvasObject).content = obj.content ∧
    ({ obj with id := newId } : CanvasObject).color = obj.color ∧
    ({ obj with id := newId } : CanvasObject).fontSize = obj.fontSize ∧
    (slide.objects ++ [{ obj with id := newId }])[ri]? = some obj := by
  have hri := objHit_getElem hhit
  obtain ⟨hrilt, -⟩ := List.getElem?_eq_some.mp hri
  have hc1 : (Tool.select == Tool.pan) = false := rfl
  have hc2 : ((0 : Nat) == 1) = false := rfl
  have hD : handleMouseDown st clientPos pos true 0 newId sampled =
      { st with
        slides := modifySlideObjects st.slides st.currentSlideIndex
          (fun objs => objs ++ [{ obj with id := newId }])
        selectedObjectId := some newId
        currentColor := obj.color
        isDragging := true
        dragOffset := ⟨pos.x - obj.x, pos.y - obj.y⟩ } := by
    simp only [handleMouseDown, hslide, hpanmode, htool, hhandle, hhit, hc1, hc2,
      Bool.false_or, Bool.or_false, Bool.or_self, Bool.false_eq_true, if_false, ite_false,
      if_true, ite_true]
  rw [hD]
  refine ⟨rfl, rfl, rfl, rfl, rfl, rfl, rfl, rfl, rfl, rfl, rfl, rfl, rfl, ?_⟩
  rw [List.getElem?_append, if_pos hrilt]
  exact hri

/-- C10: in `select` mode, a plain (no-modifier) pointer-down that hits an
object immediately removes it from its position `ri` and appends it at the
end of the slide's object sequence, starting a drag; the matching
pointer-up — even with zero pointer movement in between — then appends one
history snapshot of that reordered state, so a plain click permanently
changes the z-order and consumes one undo step. -/
theorem c10_click_reorders_and_snapshots (st : AppState) (clientPos pos : Pos)
    (newId sampled : String) (slide : SlideData) (ri : Nat) (obj : CanvasObject)
    (hslide : st.slides[st.currentSlideIndex]? = some slide)
    (hpanmode : st.isPanningMode = false)
    (htool : st.activeTool = Tool.select)
    (hhandle : selHandleHit st pos = none)
    (hhit : objHit slide.objects pos = some (ri, obj))
    (hpanflag : st.isPanningFlag = false)
    (hdraw : st.isDrawing = false)
    (hahandle : st.activeHandle = none)
    (hflag : st.isInternalStateUpdate = false)
    (hbound : st.history.length ≤ 49) :
    (handleMouseDown st clientPos pos false 0 newId sampled).slides =
      modifySlideObjects st.slides st.currentSlideIndex
        (fun objs => objs.eraseIdx ri ++ [obj]) ∧
    (handleMouseDown st clientPos pos false 0 newId sampled).isDragging = true ∧
    (handleMouseUp (handleMouseDown st clientPos pos false 0 newId sampled)).history =
      st.history.take (st.historyIndex + 1).toNat ++
        [mkHistoryState
          (modifySlideObjects st.slides st.currentSlideIndex
            (fun objs => objs.eraseIdx ri ++ [obj]))
          st.currentSlideIndex] := by
  have hc1 : (Tool.select == Tool.pan) = false := rfl
  have hc2 : ((0 : Nat) == 1) = false := rfl
  have hD : handleMouseDown st clientPos pos false 0 newId sampled =
      { st with
        slides := modifySlideObjects st.slides st.currentSlideIndex
          (fun objs => objs.eraseIdx ri ++ [obj])
        selectedObjectId := some obj.id
        currentColor := obj.color
        isDragging := true
        dragOffset := ⟨pos.x - obj.x, pos.y - obj.y⟩ } := by
    simp only [handleMouseDown, hslide, hpanmode, htool, hhandle, hhit, hc1, hc2,
      Bool.false_or, Bool.or_false, Bool.or_self, Bool.false_eq_true, if_false, ite_false,
      if_true, ite_true]
  rw [hD]
  refine ⟨rfl, rfl, ?_⟩
  show (handleMouseUp
      { st with
        slides := modifySlideObjects st.slides st.currentSlideIndex
          (fun objs => objs.eraseIdx ri ++ [obj])
        selectedObjectId := some obj.id
        currentColor := obj.color
        isDragging := true
        dragOffset := ⟨pos.x - obj.x, pos.y - obj.y⟩ }).history = _
  simp only [handleMouseUp, hpanflag, hdraw, hahandle, Bool.false_eq_true, if_false,
    ite_false, if_true, ite_true, Bool.true_or, Bool.or_true]
  rw [saveToHistory_eq]
  · exact hflag
  · show (st.history.take (st.historyIndex + 1).toNat).length + 1 ≤ 50
    simp only [List.length_take]
    omega

/-- C9 witness: Ctrl-click on the topmost demo object appends a clone with
the fresh id and selects it. -/
theorem c9_witness :
    (handleMouseDown c9State ⟨0, 0⟩ ⟨210, 210⟩ true 0 "c1" "#FFFFFF").slides =
      modifySlideObjects c9State.slides c9State.currentSlideIndex
        (fun objs => objs ++ [{ demoObj2 with id := "c1" }]) ∧
    (handleMouseDown c9State ⟨0, 0⟩ ⟨210, 210⟩ true 0 "c1" "#FFFFFF").selectedObjectId =
      some "c1" := by
  have hhit : objHit demoSlide2.objects ⟨210, 210⟩ = some (1, demoObj2) := by
    norm_num [objHit, demoSlide2, demoObj, demoObj2, hitTestRect,
      List.findIdx?_cons, List.findIdx?_nil]
  have h := c9_ctrl_duplicate c9State ⟨0, 0⟩ ⟨210, 210⟩ "c1" "#FFFFFF" demoSlide2 1 demoObj2
    rfl rfl rfl rfl hhit
  exact ⟨h.1, h.2.1⟩

/-- C10 witness: a plain click on the bottom demo object moves it to the
front and the matching pointer-up appends one history snapshot. -/
theorem c10_witness :
    (handleMouseDown c9State ⟨0, 0⟩ ⟨5, 5⟩ false 0 "u1" "#FFFFFF").slides =
      modifySlideObjects c9State.slides c9State.currentSlideIndex
        (fun objs => objs.eraseIdx 0 ++ [demoObj]) ∧
    (handleMouseDown c9State ⟨0, 0⟩ ⟨5, 5⟩ false 0 "u1" "#FFFFFF").isDragging = true ∧
    (handleMouseUp (handleMouseDown c9State ⟨0, 0⟩ ⟨5, 5⟩ false 0 "u1" "#FFFFFF")).history =
      c9State.history.take (c9State.historyIndex + 1).toNat ++
        [mkHistoryState
          (modifySlideObjects c9State.slides c9State.currentSlideIndex
            (fun objs => objs.eraseIdx 0 ++ [demoObj]))
          c9State.currentSlideIndex] := by
  have hhit : objHit demoSlide2.objects ⟨5, 5⟩ = some (0, demoObj) := by
    norm_num [objHit, demoSlide2, demoObj, demoObj2, hitTestRect,
      List.findIdx?_cons, List.findIdx?_nil]
  have h := c10_click_reorders_and_snapshots c9State ⟨0, 0⟩ ⟨5, 5⟩ "u1" "#FFFFFF" demoSlide2 0
    demoObj rfl rfl rfl rfl hhit rfl rfl rfl rfl (by decide)
  exact ⟨h.1, h.2.1, h.2.2⟩

/-- C4 witness: both parts applied at concrete histories, including the
eviction of the oldest entry from a full 50-entry history. -/
theorem c4_witness :
    (applySnapshots initialState [([], 0)]).history.length ≤ 50 ∧
    (saveToHistory c4State [] 0).history = c4State.history.tail ++ [mkHistoryState [] 0] :=
  ⟨c4_bound_and_eviction.1 initialState [([], 0)] (by decide),
   c4_bound_and_eviction.2 c4State [] 0 rfl (by decide) rfl⟩

end SlidePatcher

